import Mathlib

/-!
A shallow embedding of `LamndaCostWatchdog.py`, a scheduled AWS cost-cleanup
Lambda, together with proofs about its reporting/aggregation behaviour.

Modelling conventions:
* The AWS SDK (`boto3`) collaborator is modelled by an `Env` record: one field
  per call site, holding the response that call returns during the run
  (`Except AwsErr α`: a declared error or a value).  Per-identifier calls are
  functions from the identifier to a response.
* Python floats are modelled as exact rationals (`ℚ`); `f"{x:.2f}"`-style
  formatting is modelled by `fmtFixed` (round half up; the concrete values
  formatted in the theorems below are not rounding-mode sensitive).
* Timestamps are UTC epoch seconds (`ℤ`); every `datetime.datetime.now(utc)`
  in the source is the single field `Env.now` (a run is treated as
  instantaneous, as the spec's age/threshold discussion does).
* A Python `try/except Exception ... logger.warning` around a block is
  modelled by matching on the response and continuing on `.error`; calls not
  wrapped in any `try` propagate their error and abort the run.
* Python `repr` of a list/dict of strings is `pyListRepr`/`pyDictRepr`
  (an apostrophe character is produced with `Char.ofNat 39`); `repr` of a
  float inside a dict is approximated by two-decimal rendering, which no
  theorem below depends on.
-/

abbrev AwsErr := String

abbrev Resp (α : Type) := Except AwsErr α

/-- `'State': {'Name': ...}`, `'InstanceId'`, `'SecurityGroups'` of one EC2
instance, as read by steps 1, 5, 10 and 13. -/
structure Ec2Instance where
  instanceId : String
  state : String
  securityGroups : List String

/-- One element of `describe_instances()['Reservations']` (its `'Instances'`). -/
abbrev Reservation := List Ec2Instance

/-- One element of `describe_addresses()['Addresses']`; `hasInstance` models
`'InstanceId' in a`. -/
structure Address where
  allocationId : String
  hasInstance : Bool

structure Snapshot where
  snapshotId : String
  startTime : ℤ

structure SecurityGroup where
  groupId : String
  groupName : String

structure LoadBalancer where
  loadBalancerArn : String
  loadBalancerName : String

/-- `retentionInDays := none` models the key being absent from the log group. -/
structure LogGroup where
  logGroupName : String
  retentionInDays : Option ℤ

/-- An EBS volume as read by step 14; `tags = []` models a missing or empty
`'Tags'` entry (both falsy in the source's `not vol.get('Tags')`). -/
structure Volume where
  volumeId : String
  tags : List String
  createTime : ℤ
  state : String

structure DBInstance where
  dbInstanceIdentifier : String
  dbInstanceStatus : String

/-- The behaviour of the external resource-provider collaborator during one
invocation: one field per call site of `lambda_handler`, plus the clock and
the configuration environment variables. -/
structure Env where
  now : ℤ
  snapshotRetentionDays : ℤ
  lowCpuThreshold : ℚ
  cleanupUntaggedAfterDays : ℤ
  describeInstances1 : Resp (List Reservation)
  terminateInstances : List String → Resp Unit
  describeVolumesAvailable : Resp (List String)
  deleteVolume : String → Resp Unit
  describeAddresses : Resp (List Address)
  releaseAddress : String → Resp Unit
  listBuckets : Resp (List String)
  listObjectsKeyCount : String → Resp ℕ
  deleteBucket : String → Resp Unit
  ec2CpuMetrics : Resp (List ℚ)
  describeInstancesRunning5 : Resp (List Reservation)
  s3BucketSizeBytes : String → Resp (List ℚ)
  lambdaInvocations : Resp (List ℚ)
  describeDBInstances : Resp (List DBInstance)
  describeSnapshots : Resp (List Snapshot)
  deleteSnapshot : String → Resp Unit
  describeSecurityGroups : Resp (List SecurityGroup)
  describeInstances10 : Resp (List Reservation)
  deleteSecurityGroup : String → Resp Unit
  describeLoadBalancers : Resp (List LoadBalancer)
  describeTargetGroups : String → Resp (List String)
  deleteLoadBalancer : String → Resp Unit
  describeLogGroups : Resp (List LogGroup)
  putRetentionPolicy : String → Resp Unit
  describeInstancesRunning13 : Resp (List Reservation)
  cpuMetrics : String → Resp (List ℚ)
  describeVolumes14 : Resp (List Volume)
  getCostAndUsage : Resp (List (List (String × ℚ)))

/-- The apostrophe character used by Python list `repr`. -/
def pySquote : Char := Char.ofNat 39

/-- Python `repr` of a list of strings, e.g. `['i-1', 'i-2']`. -/
def pyListRepr (xs : List String) : String :=
  "[" ++ String.intercalate ", "
    (xs.map (fun s => pySquote.toString ++ s ++ pySquote.toString)) ++ "]"

/-- Left-pad the decimal digits of `m` with zeros to width `len`. -/
def natPad (m : ℕ) (len : ℕ) : String :=
  let s := toString m
  String.mk (List.replicate (len - s.length) '0') ++ s

/-- Python `f"{q:.digits f}"` fixed-point formatting of a float, modelled on
`ℚ` with round-half-up (the values formatted in the theorems below are not
sensitive to the difference from the float's round-half-even). -/
def fmtFixed (digits : ℕ) (q : ℚ) : String :=
  let aq := if q < 0 then -q else q
  let n := (⌊aq * (10 : ℚ) ^ digits + 1 / 2⌋).toNat
  let base := 10 ^ digits
  (if q < 0 then "-" else "") ++ toString (n / base) ++
    (if digits = 0 then "" else "." ++ natPad (n % base) digits)

/-- Python `int()` truncation toward zero, on the exact-rational float model. -/
def pyInt (q : ℚ) : ℤ :=
  if q < 0 then -⌊-q⌋ else ⌊q⌋

/-- Python `repr` of a string-keyed dict of floats, e.g. `{'EC2': 12.30}`
(float `repr` approximated by two-decimal rendering). -/
def pyDictRepr (xs : List (String × ℚ)) : String :=
  "\x7b" ++ String.intercalate ", "
    (xs.map (fun p =>
      pySquote.toString ++ p.1 ++ pySquote.toString ++ ": " ++ fmtFixed 2 p.2))
    ++ "\x7d"

/-- Python `sum` over a list of floats. -/
def sumQ : List ℚ → ℚ
  | [] => 0
  | x :: rest => x + sumQ rest

/-- `get_resource_age` (source lines 26-30): `(now_utc - creation_date).days`,
i.e. the floor of the elapsed seconds divided by 86400 (`timedelta.days`
floors toward minus infinity, which is `Int.fdiv`). -/
def get_resource_age (now creation : ℤ) : ℤ :=
  Int.fdiv (now - creation) 86400

/-- The nested `for reservation ... for instance ...` iteration pattern. -/
def allInstances : List Reservation → List Ec2Instance
  | [] => []
  | r :: rest => r ++ allInstances rest

/-- Step 1's inner loop: collect ids of instances whose state is `stopped`. -/
def stoppedIds : List Ec2Instance → List String
  | [] => []
  | i :: rest => (if i.state = "stopped" then [i.instanceId] else []) ++ stoppedIds rest

/-- A Python `for x in xs: call(x)` loop of unguarded calls: the first
declared error aborts. -/
def forEachE (f : String → Resp Unit) : List String → Resp Unit
  | [] => .ok ()
  | x :: rest =>
    match f x with
    | .error e => .error e
    | .ok _ => forEachE f rest

/-- Step 1 (source lines 47-61): terminate stopped EC2 instances.  Neither
`describe_instances` nor `terminate_instances` is inside a `try`. -/
def step1 (env : Env) : Resp (List String) :=
  match env.describeInstances1 with
  | .error e => .error e
  | .ok reservations =>
    let stopped := stoppedIds (allInstances reservations)
    if stopped.isEmpty then .ok ["No stopped EC2 instances found."]
    else
      match env.terminateInstances stopped with
      | .error e => .error e
      | .ok _ => .ok ["Terminated stopped EC2 instances: " ++ pyListRepr stopped]

/-- Step 2 (source lines 63-71): delete unattached EBS volumes.  The
per-volume `delete_volume` calls are not inside a `try`. -/
def step2 (env : Env) : Resp (List String) :=
  match env.describeVolumesAvailable with
  | .error e => .error e
  | .ok unusedVolumes =>
    if unusedVolumes.isEmpty then .ok ["No unattached EBS volumes found."]
    else
      match forEachE env.deleteVolume unusedVolumes with
      | .error e => .error e
      | .ok _ => .ok ["Deleted unused EBS volumes: " ++ pyListRepr unusedVolumes]

/-- Step 3's inner comprehension: allocation ids of addresses with no
`'InstanceId'`. -/
def unattachedEips : List Address → List String
  | [] => []
  | a :: rest => (if a.hasInstance then [] else [a.allocationId]) ++ unattachedEips rest

/-- Step 3 (source lines 73-81): release unused Elastic IPs.  The per-address
`release_address` calls are not inside a `try`. -/
def step3 (env : Env) : Resp (List String) :=
  match env.describeAddresses with
  | .error e => .error e
  | .ok addresses =>
    let unattached := unattachedEips addresses
    if unattached.isEmpty then .ok ["No unattached Elastic IPs found."]
    else
      match forEachE env.releaseAddress unattached with
      | .error e => .error e
      | .ok _ => .ok ["Released unused Elastic IPs: " ++ pyListRepr unattached]

/-- Step 4's per-bucket loop (source lines 85-93): `list_objects_v2` and
`delete_bucket` are inside one `try` whose `except` only logs, so a failing
bucket contributes no line and the loop continues. -/
def step4Loop (env : Env) : List String → List String
  | [] => []
  | name :: rest =>
    (match env.listObjectsKeyCount name with
     | .error _ => []
     | .ok kc =>
       if kc = 0 then
         match env.deleteBucket name with
         | .error _ => []
         | .ok _ => ["Deleted empty S3 bucket: " ++ name]
       else []) ++ step4Loop env rest

/-- Step 4's summary lines, given `list_buckets()` already succeeded. -/
def step4Lines (env : Env) (buckets : List String) : List String :=
  step4Loop env buckets

/-- Step 5 (source lines 95-115): the `get_metric_statistics` result is bound
but unused (the estimate only counts reservations); neither call is inside a
`try`. -/
def step5 (env : Env) : Resp (List String) :=
  match env.ec2CpuMetrics with
  | .error e => .error e
  | .ok _ =>
    match env.describeInstancesRunning5 with
    | .error e => .error e
    | .ok reservations =>
      let instanceHours := reservations.length * 24 * 30
      if instanceHours > 750 then
        .ok ["⚠️ EC2 usage likely exceeds Free Tier (estimated " ++
              toString instanceHours ++ " hours)."]
      else
        .ok ["EC2 usage within free-tier limits (" ++ toString instanceHours ++
              " hours est.)."]

/-- Step 6's per-bucket accumulation (source lines 118-138): the metrics call
is inside a `try`; a failing or datapoint-less bucket contributes nothing;
otherwise the last datapoint's average, in bytes, divided by `1024 ** 3`. -/
def totalStorageLoop (env : Env) : List String → ℚ → ℚ
  | [], acc => acc
  | name :: rest, acc =>
    totalStorageLoop env rest
      (match env.s3BucketSizeBytes name with
       | .error _ => acc
       | .ok dps =>
         match dps.getLast? with
         | none => acc
         | some bytesUsed => acc + bytesUsed / (1024 : ℚ) ^ 3)

def totalStorageGB (env : Env) (buckets : List String) : ℚ :=
  totalStorageLoop env buckets 0

/-- Step 6 (source lines 117-143): S3 free-tier check, strict `> 5`. -/
def step6 (env : Env) (buckets : List String) : List String :=
  let t := totalStorageGB env buckets
  if t > 5 then ["⚠️ S3 storage exceeds free tier: " ++ fmtFixed 2 t ++ " GB"]
  else ["S3 storage within free tier: " ++ fmtFixed 2 t ++ " GB"]

/-- Step 7 (source lines 145-158): Lambda free-tier check, strict
`> 1_000_000`; the metrics call is not inside a `try`. -/
def step7 (env : Env) : Resp (List String) :=
  match env.lambdaInvocations with
  | .error e => .error e
  | .ok dps =>
    let total := sumQ dps
    if total > 1000000 then
      .ok ["⚠️ Lambda usage exceeded free tier: " ++ toString (pyInt total) ++
            " invocations."]
    else
      .ok ["Lambda usage within free tier: " ++ toString (pyInt total) ++
            " invocations."]

/-- Step 8's comprehension: identifiers of DB instances whose status is
`available`. -/
def activeRds : List DBInstance → List String
  | [] => []
  | r :: rest =>
    (if r.dbInstanceStatus = "available" then [r.dbInstanceIdentifier] else []) ++
      activeRds rest

/-- Step 8 (source lines 160-167): RDS free-tier check, strict `> 750`. -/
def step8 (env : Env) : Resp (List String) :=
  match env.describeDBInstances with
  | .error e => .error e
  | .ok dbs =>
    let hours := (activeRds dbs).length * 24 * 30
    if hours > 750 then
      .ok ["⚠️ RDS usage likely exceeds Free Tier (" ++ toString hours ++
            " hours est.)."]
    else
      .ok ["RDS usage within free tier (" ++ toString hours ++ " hours est.)."]

/-- Step 9's loop (source lines 172-179): for each snapshot over the
retention threshold the source first appends the id to `old_snapshots` and
then attempts `delete_snapshot` inside a `try` whose `except` only logs, so
the collected list (and therefore the count and the savings) does not depend
on whether the delete succeeded. -/
def step9Loop (env : Env) : List Snapshot → List String
  | [] => []
  | snap :: rest =>
    if get_resource_age env.now snap.startTime > env.snapshotRetentionDays then
      let _ := env.deleteSnapshot snap.snapshotId
      snap.snapshotId :: step9Loop env rest
    else step9Loop env rest

structure Step9Out where
  lines : List String
  savings : ℚ
  oldSnapshots : List String

/-- Step 9 (source lines 169-183): delete old EBS snapshots;
`describe_snapshots` is not inside a `try`; `cost_savings` gains
`len(old_snapshots) * 0.05`. -/
def step9 (env : Env) : Resp Step9Out :=
  match env.describeSnapshots with
  | .error e => .error e
  | .ok snaps =>
    let old := step9Loop env snaps
    if old.isEmpty then .ok ⟨[], 0, old⟩
    else
      .ok ⟨["Deleted " ++ toString old.length ++ " old snapshots (>" ++
             toString env.snapshotRetentionDays ++ " days)"],
           (old.length : ℚ) * 0.05, old⟩

/-- Step 10's used-set (source lines 188-193): security-group ids referenced
by any non-terminated instance (the Python `set` is modelled as a list used
only for membership). -/
def usedSgIds : List Ec2Instance → List String
  | [] => []
  | i :: rest =>
    (if i.state ≠ "terminated" then i.securityGroups else []) ++ usedSgIds rest

/-- Step 10's deletion loop (source lines 195-202): `delete_security_group`
is inside a `try`; only a successful delete appends the id to `unused_sgs`. -/
def step10Loop (env : Env) (used : List String) : List SecurityGroup → List String
  | [] => []
  | sg :: rest =>
    if sg.groupName ≠ "default" ∧ sg.groupId ∉ used then
      match env.deleteSecurityGroup sg.groupId with
      | .ok _ => sg.groupId :: step10Loop env used rest
      | .error _ => step10Loop env used rest
    else step10Loop env used rest

/-- Step 10 (source lines 185-205): remove unused security groups; the two
describe calls are not inside a `try`; a line is recorded only when at least
one group was deleted. -/
def step10 (env : Env) : Resp (List String) :=
  match env.describeSecurityGroups with
  | .error e => .error e
  | .ok sgs =>
    match env.describeInstances10 with
    | .error e => .error e
    | .ok reservations =>
      let unused := step10Loop env (usedSgIds (allInstances reservations)) sgs
      if unused.isEmpty then .ok []
      else .ok ["Deleted " ++ toString unused.length ++ " unused security groups"]

/-- Step 11's loop (source lines 210-218): `describe_target_groups` is called
outside the `try`, so its failure aborts the whole run; `delete_load_balancer`
is inside the `try`, and only a successful delete appends the name and adds
`18.25` to the savings. -/
def step11Loop (env : Env) :
    List LoadBalancer → List String → ℚ → Resp (List String × ℚ)
  | [], deleted, acc => .ok (deleted, acc)
  | lb :: rest, deleted, acc =>
    match env.describeTargetGroups lb.loadBalancerArn with
    | .error e => .error e
    | .ok tgs =>
      if tgs.isEmpty then
        match env.deleteLoadBalancer lb.loadBalancerArn with
        | .ok _ => step11Loop env rest (deleted ++ [lb.loadBalancerName]) (acc + 18.25)
        | .error _ => step11Loop env rest deleted acc
      else step11Loop env rest deleted acc

structure Step11Out where
  lines : List String
  savings : ℚ
  deleted : List String

/-- Step 11 (source lines 207-221): delete unused load balancers. -/
def step11 (env : Env) : Resp Step11Out :=
  match env.describeLoadBalancers with
  | .error e => .error e
  | .ok lbs =>
    match step11Loop env lbs [] 0 with
    | .error e => .error e
    | .ok (deleted, savings) =>
      if deleted.isEmpty then .ok ⟨[], savings, deleted⟩
      else
        .ok ⟨["Deleted " ++ toString deleted.length ++ " unused load balancers"],
             savings, deleted⟩

/-- `'retentionInDays' not in lg or lg.get('retentionInDays', 0) > 30`. -/
def needsRetention (o : Option ℤ) : Bool :=
  match o with
  | none => true
  | some r => decide (r > 30)

/-- Step 12's loop (source lines 226-232): `put_retention_policy` is inside a
`try`; only a successful call increments `updated_logs`. -/
def step12Loop (env : Env) : List LogGroup → ℕ
  | [] => 0
  | lg :: rest =>
    if needsRetention lg.retentionInDays then
      match env.putRetentionPolicy lg.logGroupName with
      | .ok _ => 1 + step12Loop env rest
      | .error _ => step12Loop env rest
    else step12Loop env rest

/-- Step 12 (source lines 223-235): set CloudWatch log retention. -/
def step12 (env : Env) : Resp (List String) :=
  match env.describeLogGroups with
  | .error e => .error e
  | .ok logGroups =>
    let updated := step12Loop env logGroups
    if updated > 0 then
      .ok ["Set 30-day retention on " ++ toString updated ++ " log groups"]
    else .ok []

/-- Step 13's per-instance decision (source lines 249-264): the metrics call
and the averaging are inside a `try`; a failing call or an empty
`Datapoints` list excludes the instance; otherwise the instance is flagged
exactly when the arithmetic mean of the daily averages is strictly below the
threshold, and the mean is reported. -/
def cpuFlag (thr : ℚ) (resp : Resp (List ℚ)) : Option ℚ :=
  match resp with
  | .error _ => none
  | .ok dps =>
    if dps.isEmpty then none
    else
      let avg := sumQ dps / (dps.length : ℚ)
      if avg < thr then some avg else none

/-- Step 13's loop over running instances. -/
def step13Loop (env : Env) : List Ec2Instance → List String
  | [] => []
  | inst :: rest =>
    (match cpuFlag env.lowCpuThreshold (env.cpuMetrics inst.instanceId) with
     | some avg => [inst.instanceId ++ " (" ++ fmtFixed 1 avg ++ "% CPU)"]
     | none => []) ++ step13Loop env rest

/-- Step 13 (source lines 237-267): identify low-utilization instances;
`describe_instances` is not inside a `try`; a line is recorded only when the
flagged list is non-empty. -/
def step13 (env : Env) : Resp (List String) :=
  match env.describeInstancesRunning13 with
  | .error e => .error e
  | .ok reservations =>
    let lows := step13Loop env (allInstances reservations)
    if lows.isEmpty then .ok []
    else .ok ["⚠️ Low utilization instances (consider downsizing): " ++ pyListRepr lows]

/-- Step 14's loop (source lines 272-275): collect ids of volumes with no
tags, older than the untagged-cleanup threshold, and in state `available`.
The loop body performs no provider call at all (the step is report-only),
which is why this function is given nothing but the listed volumes and the
clock. -/
def step14Loop (now cleanupDays : ℤ) : List Volume → List String
  | [] => []
  | vol :: rest =>
    if vol.tags.isEmpty ∧ get_resource_age now vol.createTime > cleanupDays then
      if vol.state = "available" then vol.volumeId :: step14Loop now cleanupDays rest
      else step14Loop now cleanupDays rest
    else step14Loop now cleanupDays rest

/-- Step 14 (source lines 269-278): report untagged aged volumes;
`describe_volumes` is not inside a `try`; one warning line exactly when the
count is positive. -/
def step14 (resp : Resp (List Volume)) (now cleanupDays : ℤ) : Resp (List String) :=
  match resp with
  | .error e => .error e
  | .ok vols =>
    let untagged := step14Loop now cleanupDays vols
    if untagged.isEmpty then .ok []
    else
      .ok ["⚠️ Found " ++ toString untagged.length ++
            " untagged volumes older than " ++ toString cleanupDays ++ " days"]

/-- Python dict assignment `monthly_costs[service] = cost`: overwrite in
place if present, else append. -/
def dictInsert : List (String × ℚ) → String → ℚ → List (String × ℚ)
  | [], k, v => [(k, v)]
  | (k0, v0) :: rest, k, v =>
    if k0 = k then (k0, v) :: rest else (k0, v0) :: dictInsert rest k v

def dictInsertAll : List (String × ℚ) → List (String × ℚ) → List (String × ℚ)
  | [], d => d
  | g :: rest, d => dictInsertAll rest (dictInsert d g.1 g.2)

/-- The `for result ... for group ...` accumulation of step 15. -/
def buildCosts : List (List (String × ℚ)) → List (String × ℚ) → List (String × ℚ)
  | [], acc => acc
  | groups :: rest, acc => buildCosts rest (dictInsertAll groups acc)

/-- Stable insertion keeping larger values first (Python
`sorted(..., key=lambda x: x[1], reverse=True)` is stable). -/
def insertDesc (x : String × ℚ) : List (String × ℚ) → List (String × ℚ)
  | [] => [x]
  | y :: ys => if y.2 < x.2 then x :: y :: ys else y :: insertDesc x ys

def sortByValDesc (xs : List (String × ℚ)) : List (String × ℚ) :=
  xs.foldl (fun acc x => insertDesc x acc) []

def sumVals : List (String × ℚ) → ℚ
  | [] => 0
  | p :: rest => p.2 + sumVals rest

/-- Step 15 (source lines 280-306): cost analysis.  The whole step is inside
one `try`, so a failure contributes no line; on success it contributes two
lines. -/
def step15 (env : Env) : List String :=
  match env.getCostAndUsage with
  | .error _ => []
  | .ok results =>
    let monthlyCosts := buildCosts results []
    let topCosts := (sortByValDesc monthlyCosts).take 5
    let totalMonthly := sumVals monthlyCosts
    ["Top 5 cost drivers: " ++ pyDictRepr topCosts,
     "Total monthly cost: $" ++ fmtFixed 2 totalMonthly]

/-- The final summary element (source line 309):
`f"\n💰 Estimated monthly savings: ${cost_savings:.2f}"`. -/
def savingsLine (costSavings : ℚ) : String :=
  "\n💰 Estimated monthly savings: $" ++ fmtFixed 2 costSavings

/-- The structured value returned by the handler (source line 314). -/
structure RunResult where
  status : String
  summary : List String
  estimatedSavings : ℚ

/-- `lambda_handler` (source lines 32-314): the fifteen steps in order,
threading the shared `buckets` listing (fetched once, at the start of step 4)
and the `cost_savings` accumulator (started at `0`, increased only by steps 9
and 11); finally the savings line is appended to the summary.  Any error not
caught inside a step propagates here and aborts the whole invocation. -/
def lambda_handler (env : Env) : Resp RunResult :=
  match step1 env with
  | .error e => .error e
  | .ok l1 =>
  match step2 env with
  | .error e => .error e
  | .ok l2 =>
  match step3 env with
  | .error e => .error e
  | .ok l3 =>
  match env.listBuckets with
  | .error e => .error e
  | .ok buckets =>
  match step5 env with
  | .error e => .error e
  | .ok l5 =>
  match step7 env with
  | .error e => .error e
  | .ok l7 =>
  match step8 env with
  | .error e => .error e
  | .ok l8 =>
  match step9 env with
  | .error e => .error e
  | .ok s9 =>
  match step10 env with
  | .error e => .error e
  | .ok l10 =>
  match step11 env with
  | .error e => .error e
  | .ok s11 =>
  match step12 env with
  | .error e => .error e
  | .ok l12 =>
  match step13 env with
  | .error e => .error e
  | .ok l13 =>
  match step14 env.describeVolumes14 env.now env.cleanupUntaggedAfterDays with
  | .error e => .error e
  | .ok l14 =>
  let costSavings : ℚ := 0 + s9.savings + s11.savings
  let summary :=
    l1 ++ l2 ++ l3 ++ step4Lines env buckets ++ l5 ++ step6 env buckets ++
    l7 ++ l8 ++ s9.lines ++ l10 ++ s11.lines ++ l12 ++ l13 ++ l14 ++
    step15 env ++ [savingsLine costSavings]
  .ok { status := "completed", summary := summary, estimatedSavings := costSavings }

/-- Python `"\n".join(lines)`. -/
def joinLines : List String → String
  | [] => ""
  | [s] => s
  | s :: rest => s ++ "\n" ++ joinLines rest

/-- The spec's `render()` on the source (lines 308-310): the savings line is
appended to the findings and the result newline-joined. -/
def render (findings : List String) (costSavings : ℚ) : String :=
  joinLines (findings ++ [savingsLine costSavings])

/-- The source's only savings-accumulation operation is the bare
`cost_savings += amount` (lines 183 and 216): a plain addition with no
validation of the amount. -/
def add_savings (total amount : ℚ) : ℚ :=
  total + amount

inductive AggError where
  | invalidAmount

/-- Modelled from the spec (section 4.1), for comparison with the source's
`add_savings`: "adds a non-negative numeric amount to the running total.
Fails with an `InvalidAmount` condition if amount is negative; otherwise
always succeeds."  No such check exists anywhere in the source. -/
def add_savings_spec (total amount : ℚ) : Except AggError ℚ :=
  if amount < 0 then .error .invalidAmount else .ok (total + amount)

/-! ### Helpers for reasoning about responses -/

/-- A response carries a value (the call did not raise). -/
def respOk {α : Type} : Resp α → Bool
  | .ok _ => true
  | .error _ => false

theorem respOk_iff {α : Type} (x : Resp α) : respOk x = true ↔ ∃ a, x = .ok a := by
  cases x <;> simp [respOk]

theorem forEachE_ok (f : String → Resp Unit) (hf : ∀ x, respOk (f x) = true) :
    ∀ xs : List String, forEachE f xs = .ok () := by
  intro xs
  induction xs with
  | nil => rfl
  | cons x rest ih =>
    obtain ⟨u, hu⟩ := (respOk_iff (f x)).mp (hf x)
    simp [forEachE, hu, ih]

theorem joinLines_cons (s z : String) (zs : List String) :
    joinLines (s :: z :: zs) = s ++ "\n" ++ joinLines (z :: zs) := rfl

theorem joinLines_append_singleton :
    ∀ (xs : List String) (y : String), xs ≠ [] →
      joinLines (xs ++ [y]) = joinLines xs ++ "\n" ++ y := by
  intro xs
  induction xs with
  | nil => intro y h; simp at h
  | cons x rest ih =>
    intro y _
    cases rest with
    | nil => simp [joinLines]
    | cons z zs =>
      have h2 := ih y (by simp)
      rw [show (x :: z :: zs) ++ [y] = x :: z :: (zs ++ [y]) from rfl,
        joinLines_cons x z (zs ++ [y]),
        show (z :: (zs ++ [y])) = (z :: zs) ++ [y] from rfl, h2,
        joinLines_cons x z zs]
      simp [String.append_assoc]

/-! ### Concrete evaluation of the float formatting -/

theorem fmtFixed_two_zero : fmtFixed 2 (0 : ℚ) = "0.00" := by
  have h : ⌊(0 : ℚ) * (10 : ℚ) ^ 2 + 1 / 2⌋ = 0 := by
    rw [Int.floor_eq_iff] <;> norm_num
  have h0 : ¬ ((0 : ℚ) < 0) := by norm_num
  simp only [fmtFixed, if_neg h0, h]
  rfl

theorem fmtFixed_two_five : fmtFixed 2 (5 : ℚ) = "5.00" := by
  have h : ⌊(5 : ℚ) * (10 : ℚ) ^ 2 + 1 / 2⌋ = 500 := by
    rw [Int.floor_eq_iff] <;> norm_num
  have h0 : ¬ ((5 : ℚ) < 0) := by norm_num
  simp only [fmtFixed, if_neg h0, h]
  rfl

theorem fmtFixed_two_overfive :
    fmtFixed 2 ((5368709121 : ℚ) / (1024 : ℚ) ^ 3) = "5.00" := by
  have h : ⌊(5368709121 : ℚ) / (1024 : ℚ) ^ 3 * (10 : ℚ) ^ 2 + 1 / 2⌋ = 500 := by
    rw [Int.floor_eq_iff] <;> norm_num
  have h0 : ¬ ((5368709121 : ℚ) / (1024 : ℚ) ^ 3 < 0) := not_lt.mpr (by positivity)
  simp only [fmtFixed, if_neg h0, h]
  rfl

/-! ### Concrete collaborator behaviours used in the theorems -/

/-- A fully successful, fully empty account: every call succeeds and lists
nothing. -/
def okEnv : Env where
  now := 0
  snapshotRetentionDays := 30
  lowCpuThreshold := 5
  cleanupUntaggedAfterDays := 7
  describeInstances1 := .ok []
  terminateInstances := fun _ => .ok ()
  describeVolumesAvailable := .ok []
  deleteVolume := fun _ => .ok ()
  describeAddresses := .ok []
  releaseAddress := fun _ => .ok ()
  listBuckets := .ok []
  listObjectsKeyCount := fun _ => .ok 0
  deleteBucket := fun _ => .ok ()
  ec2CpuMetrics := .ok []
  describeInstancesRunning5 := .ok []
  s3BucketSizeBytes := fun _ => .ok []
  lambdaInvocations := .ok []
  describeDBInstances := .ok []
  describeSnapshots := .ok []
  deleteSnapshot := fun _ => .ok ()
  describeSecurityGroups := .ok []
  describeInstances10 := .ok []
  deleteSecurityGroup := fun _ => .ok ()
  describeLoadBalancers := .ok []
  describeTargetGroups := fun _ => .ok []
  deleteLoadBalancer := fun _ => .ok ()
  describeLogGroups := .ok []
  putRetentionPolicy := fun _ => .ok ()
  describeInstancesRunning13 := .ok []
  cpuMetrics := fun _ => .ok []
  describeVolumes14 := .ok []
  getCostAndUsage := .ok []

/-- The summary the handler produces on `okEnv`. -/
def okRunSummary : List String :=
  ["No stopped EC2 instances found.",
   "No unattached EBS volumes found.",
   "No unattached Elastic IPs found.",
   "EC2 usage within free-tier limits (0 hours est.).",
   "S3 storage within free tier: 0.00 GB",
   "Lambda usage within free tier: 0 invocations.",
   "RDS usage within free tier (0 hours est.).",
   "Top 5 cost drivers: \x7b\x7d",
   "Total monthly cost: $0.00",
   "\n💰 Estimated monthly savings: $0.00"]

theorem step1_okEnv : step1 okEnv = .ok ["No stopped EC2 instances found."] := rfl

theorem step6_okEnv : step6 okEnv [] = ["S3 storage within free tier: 0.00 GB"] := by
  have h : ¬ ((0 : ℚ) > 5) := by norm_num
  simp only [step6, totalStorageGB, totalStorageLoop, if_neg h, fmtFixed_two_zero]
  rfl

theorem step7_okEnv : step7 okEnv = .ok ["Lambda usage within free tier: 0 invocations."] := by
  have h : ¬ ((0 : ℚ) > 1000000) := by norm_num
  have hz : pyInt 0 = 0 := by
    simp [pyInt, Int.floor_zero]
  simp only [step7, okEnv, sumQ, if_neg h, hz]
  rfl

theorem step15_okEnv :
    step15 okEnv = ["Top 5 cost drivers: \x7b\x7d", "Total monthly cost: $0.00"] := by
  simp only [step15, okEnv, buildCosts, sortByValDesc, sumVals, pyDictRepr,
    fmtFixed_two_zero]
  rfl

/-- The full result the handler produces on `okEnv`. -/
def okRun : RunResult :=
  { status := "completed", summary := okRunSummary, estimatedSavings := 0 }

theorem lambda_handler_okEnv : lambda_handler okEnv = .ok okRun := by
  have h9 : step9 okEnv = .ok ⟨[], 0, []⟩ := rfl
  have h11 : step11 okEnv = .ok ⟨[], 0, []⟩ := rfl
  have hsl : savingsLine ((0 : ℚ) + 0 + 0) = "\n💰 Estimated monthly savings: $0.00" := by
    have : ((0 : ℚ) + 0 + 0) = 0 := by norm_num
    rw [savingsLine, this, fmtFixed_two_zero]
    rfl
  simp only [lambda_handler, step1_okEnv, h9, h11]
  simp only [show step2 okEnv = .ok ["No unattached EBS volumes found."] from rfl,
    show step3 okEnv = .ok ["No unattached Elastic IPs found."] from rfl,
    show okEnv.listBuckets = .ok [] from rfl,
    show step5 okEnv = .ok ["EC2 usage within free-tier limits (0 hours est.)."] from rfl,
    step7_okEnv,
    show step8 okEnv = .ok ["RDS usage within free tier (0 hours est.)."] from rfl,
    show step10 okEnv = .ok [] from rfl,
    show step12 okEnv = .ok [] from rfl,
    show step13 okEnv = .ok [] from rfl,
    show step14 okEnv.describeVolumes14 okEnv.now okEnv.cleanupUntaggedAfterDays =
      .ok [] from rfl,
    step15_okEnv, step6_okEnv, hsl]
  simp only [step4Lines, step4Loop, okEnv, okRun, okRunSummary]
  norm_num

/-! ### Per-step summary-line cardinality -/

theorem step1_length {env : Env} {l : List String} (h : step1 env = .ok l) :
    l.length = 1 := by
  unfold step1 at h
  iterate 4 ((all_goals try dsimp only at h); (all_goals try split at h))
  all_goals first
    | exact Except.noConfusion h
    | (cases h; rfl)

theorem step2_length {env : Env} {l : List String} (h : step2 env = .ok l) :
    l.length = 1 := by
  unfold step2 at h
  iterate 4 ((all_goals try dsimp only at h); (all_goals try split at h))
  all_goals first
    | exact Except.noConfusion h
    | (cases h; rfl)

theorem step3_length {env : Env} {l : List String} (h : step3 env = .ok l) :
    l.length = 1 := by
  unfold step3 at h
  iterate 4 ((all_goals try dsimp only at h); (all_goals try split at h))
  all_goals first
    | exact Except.noConfusion h
    | (cases h; rfl)

theorem step5_length {env : Env} {l : List String} (h : step5 env = .ok l) :
    l.length = 1 := by
  unfold step5 at h
  iterate 4 ((all_goals try dsimp only at h); (all_goals try split at h))
  all_goals first
    | exact Except.noConfusion h
    | (cases h; rfl)

theorem step6_length (env : Env) (buckets : List String) :
    (step6 env buckets).length = 1 := by
  unfold step6
  dsimp only
  split <;> rfl

theorem step7_length {env : Env} {l : List String} (h : step7 env = .ok l) :
    l.length = 1 := by
  unfold step7 at h
  iterate 4 ((all_goals try dsimp only at h); (all_goals try split at h))
  all_goals first
    | exact Except.noConfusion h
    | (cases h; rfl)

theorem step8_length {env : Env} {l : List String} (h : step8 env = .ok l) :
    l.length = 1 := by
  unfold step8 at h
  iterate 4 ((all_goals try dsimp only at h); (all_goals try split at h))
  all_goals first
    | exact Except.noConfusion h
    | (cases h; rfl)

theorem step9_lines_length {env : Env} {o : Step9Out} (h : step9 env = .ok o) :
    o.lines.length ≤ 1 := by
  unfold step9 at h
  iterate 4 ((all_goals try dsimp only at h); (all_goals try split at h))
  all_goals first
    | exact Except.noConfusion h
    | (cases h; simp)

theorem step10_length {env : Env} {l : List String} (h : step10 env = .ok l) :
    l.length ≤ 1 := by
  unfold step10 at h
  iterate 4 ((all_goals try dsimp only at h); (all_goals try split at h))
  all_goals first
    | exact Except.noConfusion h
    | (cases h; simp)

theorem step11_lines_length {env : Env} {o : Step11Out} (h : step11 env = .ok o) :
    o.lines.length ≤ 1 := by
  unfold step11 at h
  iterate 4 ((all_goals try dsimp only at h); (all_goals try split at h))
  all_goals first
    | exact Except.noConfusion h
    | (cases h; simp)

theorem step12_length {env : Env} {l : List String} (h : step12 env = .ok l) :
    l.length ≤ 1 := by
  unfold step12 at h
  iterate 4 ((all_goals try dsimp only at h); (all_goals try split at h))
  all_goals first
    | exact Except.noConfusion h
    | (cases h; simp)

theorem step13_length {env : Env} {l : List String} (h : step13 env = .ok l) :
    l.length ≤ 1 := by
  unfold step13 at h
  iterate 4 ((all_goals try dsimp only at h); (all_goals try split at h))
  all_goals first
    | exact Except.noConfusion h
    | (cases h; simp)

theorem step14_length {resp : Resp (List Volume)} {now cleanupDays : ℤ}
    {l : List String} (h : step14 resp now cleanupDays = .ok l) :
    l.length ≤ 1 := by
  unfold step14 at h
  iterate 4 ((all_goals try dsimp only at h); (all_goals try split at h))
  all_goals first
    | exact Except.noConfusion h
    | (cases h; simp)

theorem step15_length (env : Env) :
    (step15 env).length = 0 ∨ (step15 env).length = 2 := by
  unfold step15
  split
  · exact Or.inl rfl
  · exact Or.inr rfl

/-! ### Inverting a successful run -/

theorem lambda_handler_inv {env : Env} {r : RunResult}
    (h : lambda_handler env = .ok r) :
    ∃ l1 l2 l3 buckets l5 l7 l8 s9 l10 s11 l12 l13 l14,
      step1 env = .ok l1 ∧ step2 env = .ok l2 ∧ step3 env = .ok l3 ∧
      env.listBuckets = .ok buckets ∧ step5 env = .ok l5 ∧ step7 env = .ok l7 ∧
      step8 env = .ok l8 ∧ step9 env = .ok s9 ∧ step10 env = .ok l10 ∧
      step11 env = .ok s11 ∧ step12 env = .ok l12 ∧ step13 env = .ok l13 ∧
      step14 env.describeVolumes14 env.now env.cleanupUntaggedAfterDays = .ok l14 ∧
      r = { status := "completed",
            summary := l1 ++ l2 ++ l3 ++ step4Lines env buckets ++ l5 ++
              step6 env buckets ++ l7 ++ l8 ++ s9.lines ++ l10 ++ s11.lines ++
              l12 ++ l13 ++ l14 ++ step15 env ++
              [savingsLine (0 + s9.savings + s11.savings)],
            estimatedSavings := 0 + s9.savings + s11.savings } := by
  unfold lambda_handler at h
  iterate 13 (all_goals try split at h)
  all_goals first
    | exact Except.noConfusion h
    | exact ⟨_, _, _, _, _, _, _, _, _, _, _, _, _,
        by assumption, by assumption, by assumption, by assumption, by assumption,
        by assumption, by assumption, by assumption, by assumption, by assumption,
        by assumption, by assumption, by assumption, (Except.ok.inj h).symm⟩

/-! ### Which collaborator errors are survivable -/

/-- All calls that the source does `not` wrap in any `try` succeed.  The
guarded calls — `list_objects_v2`/`delete_bucket` (step 4), the per-bucket
storage metrics (step 6), `delete_snapshot` (step 9),
`delete_security_group` (step 10), `delete_load_balancer` (step 11),
`put_retention_policy` (step 12), the per-instance CPU metrics (step 13) and
the whole cost analysis (step 15) — are left completely unconstrained. -/
def unguardedOk (env : Env) : Prop :=
  respOk env.describeInstances1 = true ∧
  (∀ ids, respOk (env.terminateInstances ids) = true) ∧
  respOk env.describeVolumesAvailable = true ∧
  (∀ v, respOk (env.deleteVolume v) = true) ∧
  respOk env.describeAddresses = true ∧
  (∀ a, respOk (env.releaseAddress a) = true) ∧
  respOk env.listBuckets = true ∧
  respOk env.ec2CpuMetrics = true ∧
  respOk env.describeInstancesRunning5 = true ∧
  respOk env.lambdaInvocations = true ∧
  respOk env.describeDBInstances = true ∧
  respOk env.describeSnapshots = true ∧
  respOk env.describeSecurityGroups = true ∧
  respOk env.describeInstances10 = true ∧
  respOk env.describeLoadBalancers = true ∧
  (∀ arn, respOk (env.describeTargetGroups arn) = true) ∧
  respOk env.describeLogGroups = true ∧
  respOk env.describeInstancesRunning13 = true ∧
  respOk env.describeVolumes14 = true

theorem step1_ok {env : Env} (h1 : respOk env.describeInstances1 = true)
    (h2 : ∀ ids, respOk (env.terminateInstances ids) = true) :
    ∃ l, step1 env = .ok l := by
  obtain ⟨rs, hrs⟩ := (respOk_iff _).mp h1
  unfold step1
  rw [hrs]
  by_cases he : (stoppedIds (allInstances rs)).isEmpty
  · simp only [he]
    exact ⟨_, rfl⟩
  · obtain ⟨u, hu⟩ := (respOk_iff _).mp (h2 (stoppedIds (allInstances rs)))
    simp only [he, hu]
    exact ⟨_, rfl⟩

theorem step2_ok {env : Env} (h1 : respOk env.describeVolumesAvailable = true)
    (h2 : ∀ v, respOk (env.deleteVolume v) = true) :
    ∃ l, step2 env = .ok l := by
  obtain ⟨vols, hv⟩ := (respOk_iff _).mp h1
  unfold step2
  rw [hv]
  by_cases he : vols.isEmpty
  · simp only [he]
    exact ⟨_, rfl⟩
  · simp only [he, forEachE_ok env.deleteVolume h2 vols]
    exact ⟨_, rfl⟩

theorem step3_ok {env : Env} (h1 : respOk env.describeAddresses = true)
    (h2 : ∀ a, respOk (env.releaseAddress a) = true) :
    ∃ l, step3 env = .ok l := by
  obtain ⟨addrs, ha⟩ := (respOk_iff _).mp h1
  unfold step3
  rw [ha]
  by_cases he : (unattachedEips addrs).isEmpty
  · simp only [he]
    exact ⟨_, rfl⟩
  · simp only [he, forEachE_ok env.releaseAddress h2 (unattachedEips addrs)]
    exact ⟨_, rfl⟩

theorem step5_ok {env : Env} (h1 : respOk env.ec2CpuMetrics = true)
    (h2 : respOk env.describeInstancesRunning5 = true) :
    ∃ l, step5 env = .ok l := by
  obtain ⟨m, hm⟩ := (respOk_iff _).mp h1
  obtain ⟨rs, hrs⟩ := (respOk_iff _).mp h2
  unfold step5
  rw [hm, hrs]
  dsimp only
  split <;> exact ⟨_, rfl⟩

theorem step7_ok {env : Env} (h1 : respOk env.lambdaInvocations = true) :
    ∃ l, step7 env = .ok l := by
  obtain ⟨dps, hd⟩ := (respOk_iff _).mp h1
  unfold step7
  rw [hd]
  dsimp only
  split <;> exact ⟨_, rfl⟩

theorem step8_ok {env : Env} (h1 : respOk env.describeDBInstances = true) :
    ∃ l, step8 env = .ok l := by
  obtain ⟨dbs, hd⟩ := (respOk_iff _).mp h1
  unfold step8
  rw [hd]
  dsimp only
  split <;> exact ⟨_, rfl⟩

theorem step9_ok {env : Env} (h1 : respOk env.describeSnapshots = true) :
    ∃ o, step9 env = .ok o := by
  obtain ⟨snaps, hs⟩ := (respOk_iff _).mp h1
  unfold step9
  rw [hs]
  dsimp only
  split <;> exact ⟨_, rfl⟩

theorem step10_ok {env : Env} (h1 : respOk env.describeSecurityGroups = true)
    (h2 : respOk env.describeInstances10 = true) :
    ∃ l, step10 env = .ok l := by
  obtain ⟨sgs, hs⟩ := (respOk_iff _).mp h1
  obtain ⟨rs, hr⟩ := (respOk_iff _).mp h2
  unfold step10
  rw [hs, hr]
  dsimp only
  split <;> exact ⟨_, rfl⟩

theorem step11Loop_ok {env : Env}
    (h : ∀ arn, respOk (env.describeTargetGroups arn) = true) :
    ∀ (lbs : List LoadBalancer) (deleted : List String) (acc : ℚ),
      ∃ out, step11Loop env lbs deleted acc = .ok out := by
  intro lbs
  induction lbs with
  | nil => intro deleted acc; exact ⟨_, rfl⟩
  | cons lb rest ih =>
    intro deleted acc
    obtain ⟨tgs, ht⟩ := (respOk_iff _).mp (h lb.loadBalancerArn)
    unfold step11Loop
    rw [ht]
    dsimp only
    by_cases he : tgs.isEmpty
    · simp only [he]
      cases hd : env.deleteLoadBalancer lb.loadBalancerArn with
      | ok u => simpa using ih (deleted ++ [lb.loadBalancerName]) (acc + 18.25)
      | error e => simpa using ih deleted acc
    · simp only [he]
      exact ih deleted acc

theorem step11_ok {env : Env} (h1 : respOk env.describeLoadBalancers = true)
    (h2 : ∀ arn, respOk (env.describeTargetGroups arn) = true) :
    ∃ o, step11 env = .ok o := by
  obtain ⟨lbs, hl⟩ := (respOk_iff _).mp h1
  obtain ⟨out, hout⟩ := step11Loop_ok h2 lbs [] 0
  unfold step11
  rw [hl]
  dsimp only
  rw [hout]
  dsimp only
  split <;> exact ⟨_, rfl⟩

theorem step12_ok {env : Env} (h1 : respOk env.describeLogGroups = true) :
    ∃ l, step12 env = .ok l := by
  obtain ⟨lgs, hl⟩ := (respOk_iff _).mp h1
  unfold step12
  rw [hl]
  dsimp only
  split <;> exact ⟨_, rfl⟩

theorem step13_ok {env : Env} (h1 : respOk env.describeInstancesRunning13 = true) :
    ∃ l, step13 env = .ok l := by
  obtain ⟨rs, hr⟩ := (respOk_iff _).mp h1
  unfold step13
  rw [hr]
  dsimp only
  split <;> exact ⟨_, rfl⟩

theorem step14_ok {env : Env} (h1 : respOk env.describeVolumes14 = true) :
    ∃ l, step14 env.describeVolumes14 env.now env.cleanupUntaggedAfterDays = .ok l := by
  obtain ⟨vols, hv⟩ := (respOk_iff _).mp h1
  unfold step14
  rw [hv]
  dsimp only
  split <;> exact ⟨_, rfl⟩

/-! ### Claim C1: which step errors are fatal -/

/-- Claim C1 (amended): errors of the calls the source wraps in a `try`
(per-bucket listing/deletion, per-bucket storage metrics, per-snapshot
deletion, per-security-group deletion, per-load-balancer deletion,
per-log-group retention update, per-instance CPU metrics, and the whole
cost-analysis step) are never fatal: whatever those calls do, if every
unguarded call succeeds, the run completes and returns a report. -/
theorem claim_c1_amended (env : Env) (h : unguardedOk env) :
    respOk (lambda_handler env) = true := by
  obtain ⟨h1, h2, h3, h4, h5, h6, h7, h8, h9, h10, h11, h12, h13, h14, h15,
    h16, h17, h18, h19⟩ := h
  obtain ⟨l1, e1⟩ := step1_ok h1 h2
  obtain ⟨l2, e2⟩ := step2_ok h3 h4
  obtain ⟨l3, e3⟩ := step3_ok h5 h6
  obtain ⟨bk, e4⟩ := (respOk_iff _).mp h7
  obtain ⟨l5, e5⟩ := step5_ok h8 h9
  obtain ⟨l7, e7⟩ := step7_ok h10
  obtain ⟨l8, e8⟩ := step8_ok h11
  obtain ⟨s9, e9⟩ := step9_ok h12
  obtain ⟨l10, e10⟩ := step10_ok h13 h14
  obtain ⟨s11, e11⟩ := step11_ok h15 h16
  obtain ⟨l12, e12⟩ := step12_ok h17
  obtain ⟨l13, e13⟩ := step13_ok h18
  obtain ⟨l14, e14⟩ := step14_ok h19
  unfold lambda_handler
  simp only [e1, e2, e3, e4, e5, e7, e8, e9, e10, e11, e12, e13, e14, respOk]

/-- The account of `okEnv` except that one unattached volume is listed and
its deletion is denied. -/
def volFailEnv : Env :=
  { okEnv with
    describeVolumesAvailable := .ok ["vol-1"],
    deleteVolume := fun _ => .error "AccessDenied" }

/-- Claim C1, counterexample: a declared collaborator error inside check
step 2 (the unguarded per-volume `delete_volume`) aborts the whole
invocation — no subsequent step runs and no report is produced, contradicting
"no error arising in any of the fifteen check steps is ever fatal". -/
theorem claim_c1_counterexample :
    lambda_handler volFailEnv = .error "AccessDenied" := rfl

theorem claim_c1_witness :
    unguardedOk okEnv ∧ respOk (lambda_handler okEnv) = true := by
  have h : unguardedOk okEnv := by
    refine ⟨rfl, fun _ => rfl, rfl, fun _ => rfl, rfl, fun _ => rfl, rfl, rfl,
      rfl, rfl, rfl, rfl, rfl, rfl, rfl, fun _ => rfl, rfl, rfl, rfl⟩
  exact ⟨h, claim_c1_amended okEnv h⟩

/-! ### Claim C2: one summary line per step? -/

/-- The number of summary lines of a completed run. -/
def runSummaryLen (env : Env) : Option ℕ :=
  match lambda_handler env with
  | .ok r => some r.summary.length
  | .error _ => none

/-- Claim C2, counterexample: on a fully successful, fully empty account the
run completes with 10 summary lines — the 7 "nothing found"/within-limits
lines of steps 1, 2, 3, 5, 6, 7, 8, the 2 cost-analysis lines of step 15 and
the savings line — not one line per check step (which would give 15 findings,
16 lines with the savings line): steps 4 and 9-14 omit themselves entirely
when they find nothing. -/
theorem claim_c2_counterexample :
    runSummaryLen okEnv = some 10 ∧ runSummaryLen okEnv ≠ some 15 ∧
      runSummaryLen okEnv ≠ some 16 := by
  have h : runSummaryLen okEnv = some 10 := by
    rw [runSummaryLen, lambda_handler_okEnv]
    rfl
  refine ⟨h, ?_, ?_⟩ <;> rw [h] <;> decide

/-- Claim C2 (amended): on every run that completes, the summary is the
in-order concatenation of the steps' line blocks followed by the single
savings line; steps 1, 2, 3, 5, 6, 7 and 8 contribute exactly one line each
(a "nothing found"/within-limits line when nothing matched), steps 9-14
contribute at most one line (none when they found or changed nothing), step 4
contributes one line per empty bucket it deleted, and step 15 contributes two
lines on success and none on failure. -/
theorem claim_c2_amended (env : Env) (r : RunResult)
    (l1 l2 l3 buckets l5 l7 l8 : List String)
    (s9 : Step9Out) (l10 : List String) (s11 : Step11Out)
    (l12 l13 l14 : List String)
    (hr : lambda_handler env = .ok r)
    (h1 : step1 env = .ok l1) (h2 : step2 env = .ok l2) (h3 : step3 env = .ok l3)
    (hb : env.listBuckets = .ok buckets) (h5 : step5 env = .ok l5)
    (h7 : step7 env = .ok l7) (h8 : step8 env = .ok l8)
    (h9 : step9 env = .ok s9) (h10 : step10 env = .ok l10)
    (h11 : step11 env = .ok s11) (h12 : step12 env = .ok l12)
    (h13 : step13 env = .ok l13)
    (h14 : step14 env.describeVolumes14 env.now env.cleanupUntaggedAfterDays = .ok l14) :
    r.summary =
      l1 ++ l2 ++ l3 ++ step4Lines env buckets ++ l5 ++ step6 env buckets ++
        l7 ++ l8 ++ s9.lines ++ l10 ++ s11.lines ++ l12 ++ l13 ++ l14 ++
        step15 env ++ [savingsLine r.estimatedSavings] ∧
      l1.length = 1 ∧ l2.length = 1 ∧ l3.length = 1 ∧ l5.length = 1 ∧
      (step6 env buckets).length = 1 ∧ l7.length = 1 ∧ l8.length = 1 ∧
      s9.lines.length ≤ 1 ∧ l10.length ≤ 1 ∧ s11.lines.length ≤ 1 ∧
      l12.length ≤ 1 ∧ l13.length ≤ 1 ∧ l14.length ≤ 1 ∧
      ((step15 env).length = 0 ∨ (step15 env).length = 2) := by
  obtain ⟨a1, a2, a3, bk, a5, a7, a8, t9, a10, t11, a12, a13, a14,
    e1, e2, e3, eb, e5, e7, e8, e9, e10, e11, e12, e13, e14, hre⟩ :=
    lambda_handler_inv hr
  cases Except.ok.inj (e1.symm.trans h1)
  cases Except.ok.inj (e2.symm.trans h2)
  cases Except.ok.inj (e3.symm.trans h3)
  cases Except.ok.inj (eb.symm.trans hb)
  cases Except.ok.inj (e5.symm.trans h5)
  cases Except.ok.inj (e7.symm.trans h7)
  cases Except.ok.inj (e8.symm.trans h8)
  cases Except.ok.inj (e9.symm.trans h9)
  cases Except.ok.inj (e10.symm.trans h10)
  cases Except.ok.inj (e11.symm.trans h11)
  cases Except.ok.inj (e12.symm.trans h12)
  cases Except.ok.inj (e13.symm.trans h13)
  cases Except.ok.inj (e14.symm.trans h14)
  subst hre
  exact ⟨rfl, step1_length h1, step2_length h2, step3_length h3,
    step5_length h5, step6_length env buckets, step7_length h7, step8_length h8,
    step9_lines_length h9, step10_length h10, step11_lines_length h11,
    step12_length h12, step13_length h13, step14_length h14, step15_length env⟩

theorem claim_c2_witness :
    okRunSummary =
      ["No stopped EC2 instances found."] ++ ["No unattached EBS volumes found."] ++
        ["No unattached Elastic IPs found."] ++ step4Lines okEnv [] ++
        ["EC2 usage within free-tier limits (0 hours est.)."] ++ step6 okEnv [] ++
        ["Lambda usage within free tier: 0 invocations."] ++
        ["RDS usage within free tier (0 hours est.)."] ++
        [] ++ [] ++ [] ++ [] ++ [] ++ [] ++ step15 okEnv ++ [savingsLine 0] ∧
      (["No stopped EC2 instances found."] : List String).length = 1 ∧
      (["No unattached EBS volumes found."] : List String).length = 1 ∧
      (["No unattached Elastic IPs found."] : List String).length = 1 ∧
      (["EC2 usage within free-tier limits (0 hours est.)."] : List String).length = 1 ∧
      (step6 okEnv []).length = 1 ∧
      (["Lambda usage within free tier: 0 invocations."] : List String).length = 1 ∧
      (["RDS usage within free tier (0 hours est.)."] : List String).length = 1 ∧
      ([] : List String).length ≤ 1 ∧ ([] : List String).length ≤ 1 ∧
      ([] : List String).length ≤ 1 ∧ ([] : List String).length ≤ 1 ∧
      ([] : List String).length ≤ 1 ∧ ([] : List String).length ≤ 1 ∧
      ((step15 okEnv).length = 0 ∨ (step15 okEnv).length = 2) :=
  claim_c2_amended okEnv okRun
    ["No stopped EC2 instances found."] ["No unattached EBS volumes found."]
    ["No unattached Elastic IPs found."] []
    ["EC2 usage within free-tier limits (0 hours est.)."]
    ["Lambda usage within free tier: 0 invocations."]
    ["RDS usage within free tier (0 hours est.)."]
    ⟨[], 0, []⟩ [] ⟨[], 0, []⟩ [] [] []
    lambda_handler_okEnv rfl rfl rfl rfl rfl step7_okEnv rfl rfl rfl rfl rfl rfl rfl

/-! ### Claim C7: the savings accumulator -/

theorem step9_savings {env : Env} {o : Step9Out} (h : step9 env = .ok o) :
    o.savings = (o.oldSnapshots.length : ℚ) * 0.05 := by
  cases hs : env.describeSnapshots with
  | error e => rw [step9, hs] at h; exact Except.noConfusion h
  | ok snaps =>
    rw [step9, hs] at h
    dsimp only at h
    by_cases he : (step9Loop env snaps).isEmpty
    · rw [if_pos he] at h
      cases h
      have hnil : step9Loop env snaps = [] := by simpa using he
      dsimp only
      rw [hnil]
      simp
    · rw [if_neg he] at h
      cases h
      rfl

theorem step11Loop_savings {env : Env} :
    ∀ (lbs : List LoadBalancer) (deleted : List String) (acc : ℚ)
      (out : List String × ℚ),
      step11Loop env lbs deleted acc = .ok out →
      acc = (deleted.length : ℚ) * 18.25 →
      out.2 = (out.1.length : ℚ) * 18.25 := by
  intro lbs
  induction lbs with
  | nil =>
    intro deleted acc out h hacc
    cases Except.ok.inj h
    exact hacc
  | cons lb rest ih =>
    intro deleted acc out h hacc
    rw [step11Loop] at h
    cases ht : env.describeTargetGroups lb.loadBalancerArn with
    | error e => rw [ht] at h; exact Except.noConfusion h
    | ok tgs =>
      rw [ht] at h
      dsimp only at h
      by_cases he : tgs.isEmpty
      · rw [if_pos he] at h
        cases hd : env.deleteLoadBalancer lb.loadBalancerArn with
        | ok u =>
          rw [hd] at h
          dsimp only at h
          refine ih _ _ _ h ?_
          rw [hacc]
          push_cast [List.length_append, List.length_singleton]
          ring
        | error e =>
          rw [hd] at h
          dsimp only at h
          exact ih _ _ _ h hacc
      · rw [if_neg he] at h
        exact ih _ _ _ h hacc

theorem step11_savings {env : Env} {o : Step11Out} (h : step11 env = .ok o) :
    o.savings = (o.deleted.length : ℚ) * 18.25 := by
  cases hl : env.describeLoadBalancers with
  | error e => rw [step11, hl] at h; exact Except.noConfusion h
  | ok lbs =>
    rw [step11, hl] at h
    dsimp only at h
    cases hloop : step11Loop env lbs [] 0 with
    | error e => rw [hloop] at h; exact Except.noConfusion h
    | ok out =>
      have hsav := step11Loop_savings lbs [] 0 out hloop (by simp)
      rw [hloop] at h
      obtain ⟨deleted, savings⟩ := out
      dsimp only at h hsav
      by_cases he : deleted.isEmpty
      · rw [if_pos he] at h
        cases h
        exact hsav
      · rw [if_neg he] at h
        cases h
        exact hsav

/-- Claim C7: the savings accumulator starts at zero and on every completed
run its final value is exactly `0.05` per snapshot the snapshot step
collected as old plus `18.25` per load balancer the load-balancer step
deleted; in particular it is non-negative and no step ever decreases it. -/
theorem claim_c7_savings (env : Env) (r : RunResult) (s9 : Step9Out)
    (s11 : Step11Out) (hr : lambda_handler env = .ok r)
    (h9 : step9 env = .ok s9) (h11 : step11 env = .ok s11) :
    s9.savings = (s9.oldSnapshots.length : ℚ) * 0.05 ∧
    s11.savings = (s11.deleted.length : ℚ) * 18.25 ∧
    r.estimatedSavings =
      (s9.oldSnapshots.length : ℚ) * 0.05 + (s11.deleted.length : ℚ) * 18.25 ∧
    0 ≤ r.estimatedSavings := by
  obtain ⟨a1, a2, a3, bk, a5, a7, a8, t9, a10, t11, a12, a13, a14,
    e1, e2, e3, eb, e5, e7, e8, e9, e10, e11, e12, e13, e14, hre⟩ :=
    lambda_handler_inv hr
  cases Except.ok.inj (e9.symm.trans h9)
  cases Except.ok.inj (e11.symm.trans h11)
  subst hre
  have a := step9_savings h9
  have b := step11_savings h11
  refine ⟨a, b, ?_, ?_⟩
  · show (0 : ℚ) + _ + _ = _
    rw [a, b, zero_add]
  · show (0 : ℚ) ≤ 0 + _ + _
    rw [a, b]
    positivity

theorem claim_c7_witness :
    (0 : ℚ) = ((([] : List String).length : ℚ)) * 0.05 ∧
    (0 : ℚ) = ((([] : List String).length : ℚ)) * 18.25 ∧
    okRun.estimatedSavings =
      ((([] : List String).length : ℚ)) * 0.05 +
        ((([] : List String).length : ℚ)) * 18.25 ∧
    0 ≤ okRun.estimatedSavings :=
  claim_c7_savings okEnv okRun ⟨[], 0, []⟩ ⟨[], 0, []⟩
    lambda_handler_okEnv rfl rfl

/-! ### Claim C3: the rendered report -/

/-- Claim C3, counterexample: with zero findings and zero savings the
rendered report is not `"\nEstimated monthly savings: $0.00"` — the source's
savings line (line 309) carries a money-bag emoji prefix, so the report is
`"\n💰 Estimated monthly savings: $0.00"`. -/
theorem claim_c3_counterexample :
    render [] 0 ≠ "\nEstimated monthly savings: $0.00" ∧
    render [] 0 = "\n💰 Estimated monthly savings: $0.00" := by
  have h : render [] 0 = "\n💰 Estimated monthly savings: $0.00" := by
    rw [render, savingsLine, fmtFixed_two_zero]
    rfl
  constructor
  · rw [h]; decide
  · exact h

/-- Claim C3 (amended): `render` returns the newline-joined findings followed
by a blank line and the savings summary line
`💰 Estimated monthly savings: $<total, 2 decimals>` (the leading `\n` of
that line produces the blank line); with zero findings and zero savings the
result is exactly `"\n💰 Estimated monthly savings: $0.00"`. -/
theorem claim_c3_amended :
    (∀ (findings : List String) (q : ℚ),
      render findings q =
        joinLines findings ++ (if findings.isEmpty then "" else "\n") ++
          ("\n💰 Estimated monthly savings: $" ++ fmtFixed 2 q)) ∧
    render [] 0 = "\n💰 Estimated monthly savings: $0.00" := by
  constructor
  · intro findings q
    cases findings with
    | nil => rfl
    | cons f rest =>
      rw [render, joinLines_append_singleton (f :: rest) _ (by simp), savingsLine]
      simp
  · rw [render, savingsLine, fmtFixed_two_zero]
    rfl

/-! ### Claim C4: adding savings amounts -/

/-- Claim C4, counterexample: the source's accumulation (`cost_savings += x`)
performs no validation: adding `-1` to a zero total succeeds and yields `-1`,
so it neither fails with an `InvalidAmount` condition nor leaves the total
unchanged; the spec-modelled contract `add_savings_spec` (which does fail) is
not what the source implements. -/
theorem claim_c4_counterexample :
    add_savings 0 (-1) = -1 ∧ add_savings 0 (-1) ≠ 0 ∧
    add_savings_spec 0 (-1) = .error .invalidAmount := by
  refine ⟨?_, ?_, ?_⟩
  · rw [add_savings]; norm_num
  · rw [add_savings]; norm_num
  · rw [add_savings_spec, if_pos (by norm_num)]

/-- Claim C4 (amended): adding a savings amount never fails: it is a plain
addition; a non-negative amount never decreases the total, and adding `-1`
succeeds and decreases the total by one. -/
theorem claim_c4_amended (t a : ℚ) :
    (0 ≤ a → t ≤ add_savings t a) ∧ add_savings t (-1) = t - 1 := by
  constructor
  · intro ha
    rw [add_savings]
    linarith
  · rw [add_savings]
    ring

theorem claim_c4_witness :
    (0 ≤ (2 : ℚ) → (1 : ℚ) ≤ add_savings 1 2) ∧ add_savings 1 (-1) = 1 - 1 :=
  claim_c4_amended 1 2

/-! ### Claim C5: partial failures inside per-item steps -/

/-- One snapshot 31 days old (31 days before `now = 0`) whose deletion is
denied; everything else as in `okEnv`. -/
def snapFailEnv : Env :=
  { okEnv with
    describeSnapshots := .ok [⟨"snap-1", -2678400⟩],
    deleteSnapshot := fun _ => .error "AccessDenied" }

/-- One non-default unused security group whose deletion is denied. -/
def sgFailEnv : Env :=
  { okEnv with
    describeSecurityGroups := .ok [⟨"sg-1", "web"⟩],
    deleteSecurityGroup := fun _ => .error "DependencyViolation" }

/-- Claim C5, failing input: the snapshot step appends the id to
`old_snapshots` before attempting the delete (source lines 175-177), so with
one old snapshot whose `delete_snapshot` raises, the step still reports
"Deleted 1 old snapshots" and credits $0.05 although zero deletions
succeeded; the security-group step (like the load-balancer step) follows the
claimed behaviour and reports nothing when its only candidate's deletion
fails. -/
theorem claim_c5_snapshot_miscount :
    step9 snapFailEnv =
      .ok ⟨["Deleted 1 old snapshots (>30 days)"], (0.05 : ℚ), ["snap-1"]⟩ ∧
    snapFailEnv.deleteSnapshot "snap-1" = .error "AccessDenied" ∧
    step10 sgFailEnv = .ok [] := by
  refine ⟨?_, rfl, rfl⟩
  have h : step9 snapFailEnv =
      .ok ⟨["Deleted 1 old snapshots (>30 days)"],
        ((["snap-1"] : List String).length : ℚ) * 0.05, ["snap-1"]⟩ := rfl
  have h2 : ((["snap-1"] : List String).length : ℚ) * 0.05 = (0.05 : ℚ) := by
    norm_num
  rw [h2] at h
  exact h

/-! ### Claim C6: free-tier boundaries -/

/-- One bucket whose storage metric reports exactly 5 GiB (5368709120
bytes). -/
def s3Env5 : Env := { okEnv with s3BucketSizeBytes := fun _ => .ok [5368709120] }

/-- One bucket whose storage metric reports 5 GiB plus one byte. -/
def s3Env5b : Env := { okEnv with s3BucketSizeBytes := fun _ => .ok [5368709121] }

/-- Claim C6: the S3 free-tier check divides bytes by `1024 ^ 3` and compares
with strict `>` against 5, so any total of at most 5 GB — in particular
exactly 5368709120 bytes — is reported as within the free tier, while one
byte more is reported as exceeding; a window with zero datapoints
contributes a zero estimate and is within limits, and likewise the Lambda
invocation check reports zero datapoints as zero invocations within the free
tier. -/
theorem claim_c6_free_tier :
    (∀ (env : Env) (buckets : List String),
      totalStorageGB env buckets ≤ 5 →
      step6 env buckets =
        ["S3 storage within free tier: " ++
          fmtFixed 2 (totalStorageGB env buckets) ++ " GB"]) ∧
    totalStorageGB s3Env5 ["b"] = 5 ∧
    step6 s3Env5 ["b"] = ["S3 storage within free tier: 5.00 GB"] ∧
    step6 s3Env5b ["b"] = ["⚠️ S3 storage exceeds free tier: 5.00 GB"] ∧
    totalStorageGB okEnv ["b"] = 0 ∧
    step6 okEnv ["b"] = ["S3 storage within free tier: 0.00 GB"] ∧
    step7 okEnv = .ok ["Lambda usage within free tier: 0 invocations."] := by
  have h5 : totalStorageGB s3Env5 ["b"] = 5 := by
    show (0 : ℚ) + (5368709120 : ℚ) / (1024 : ℚ) ^ 3 = 5
    norm_num
  have h5b : totalStorageGB s3Env5b ["b"] = (5368709121 : ℚ) / (1024 : ℚ) ^ 3 := by
    show (0 : ℚ) + (5368709121 : ℚ) / (1024 : ℚ) ^ 3 = (5368709121 : ℚ) / (1024 : ℚ) ^ 3
    exact zero_add _
  have h0 : totalStorageGB okEnv ["b"] = 0 := rfl
  refine ⟨?_, h5, ?_, ?_, h0, ?_, step7_okEnv⟩
  · intro env buckets h
    simp only [step6]
    rw [if_neg (not_lt.mpr h)]
  · simp only [step6]
    rw [h5, if_neg (by norm_num), fmtFixed_two_five]
    rfl
  · simp only [step6]
    rw [h5b, if_pos (by norm_num), fmtFixed_two_overfive]
    rfl
  · simp only [step6]
    rw [h0, if_neg (by norm_num), fmtFixed_two_zero]
    rfl

theorem claim_c6_witness :
    totalStorageGB s3Env5 ["b"] ≤ 5 ∧
    step6 s3Env5 ["b"] =
      ["S3 storage within free tier: " ++
        fmtFixed 2 (totalStorageGB s3Env5 ["b"]) ++ " GB"] :=
  ⟨by rw [claim_c6_free_tier.2.1],
   claim_c6_free_tier.1 s3Env5 ["b"] (by rw [claim_c6_free_tier.2.1])⟩

/-! ### Claim C8: resource age is floor of elapsed days -/

/-- Claim C8: for every creation instant not later than now, the computed
resource age is the floor of the elapsed time in whole days: if the elapsed
seconds lie in `[86400 * d, 86400 * (d + 1))` then the age is `d`. -/
theorem claim_c8_age_floor (now creation d : ℤ) (h0 : creation ≤ now)
    (h1 : 86400 * d ≤ now - creation) (h2 : now - creation < 86400 * (d + 1)) :
    get_resource_age now creation = d := by
  rw [get_resource_age, Int.fdiv_eq_ediv (now - creation) (by norm_num)]
  omega

/-- 30 days and 1 second of elapsed time give age 30; 29 days and 23 hours
give age 29. -/
theorem claim_c8_witness :
    (0 : ℤ) ≤ 2592001 ∧ get_resource_age 2592001 0 = 30 ∧
      get_resource_age 2588400 0 = 29 :=
  ⟨by decide,
   claim_c8_age_floor 2592001 0 30 (by decide) (by decide) (by decide),
   claim_c8_age_floor 2588400 0 29 (by decide) (by decide) (by decide)⟩

/-! ### Claim C9: the low-utilization predicate -/

/-- Claim C9: a running instance is flagged as low-utilization exactly when
its CPU-metrics call succeeded with at least one datapoint in the 7-day
window and the arithmetic mean of the daily averages is strictly below the
threshold (the flagged value being that mean); an instance with zero
datapoints — or whose metrics call raised — is excluded, not treated as
zero utilization. -/
theorem claim_c9_low_cpu (thr : ℚ) (resp : Resp (List ℚ)) (a : ℚ) :
    (cpuFlag thr resp = some a ↔
      ∃ dps, resp = .ok dps ∧ dps ≠ [] ∧
        a = sumQ dps / (dps.length : ℚ) ∧ a < thr) ∧
    cpuFlag thr (.ok []) = none := by
  refine ⟨⟨?_, ?_⟩, rfl⟩
  · intro h
    cases resp with
    | error e => exact Option.noConfusion h
    | ok dps =>
      by_cases he : dps.isEmpty
      · rw [cpuFlag] at h
        dsimp only at h
        rw [if_pos he] at h
        exact Option.noConfusion h
      · rw [cpuFlag] at h
        dsimp only at h
        rw [if_neg he] at h
        by_cases hlt : sumQ dps / (dps.length : ℚ) < thr
        · rw [if_pos hlt] at h
          have hma := Option.some.inj h
          refine ⟨dps, rfl, by simpa using he, hma.symm, ?_⟩
          rw [← hma]
          exact hlt
        · rw [if_neg hlt] at h
          exact Option.noConfusion h
  · rintro ⟨dps, rfl, hne, ha, hlt⟩
    have he : ¬ dps.isEmpty = true := by simpa using hne
    rw [cpuFlag]
    dsimp only
    rw [if_neg he]
    subst ha
    rw [if_pos hlt]

/-! ### Claim C10: the untagged-volume step is report-only -/

/-- The predicate of step 14 as the claim states it: no tags, strictly older
than the untagged-cleanup threshold, in state `available`. -/
def untaggedOldAvailable (now cleanupDays : ℤ) (v : Volume) : Bool :=
  v.tags.isEmpty && decide (get_resource_age now v.createTime > cleanupDays) &&
    decide (v.state = "available")

theorem step14Loop_eq (now cleanupDays : ℤ) :
    ∀ vols : List Volume,
      step14Loop now cleanupDays vols =
        (vols.filter (untaggedOldAvailable now cleanupDays)).map
          (fun v => v.volumeId) := by
  intro vols
  induction vols with
  | nil => rfl
  | cons vol rest ih =>
    by_cases h1 : vol.tags.isEmpty = true
    · by_cases h2 : get_resource_age now vol.createTime > cleanupDays
      · by_cases h3 : vol.state = "available"
        · simp [step14Loop, List.filter_cons, untaggedOldAvailable, h1, h2, h3, ih]
        · simp [step14Loop, List.filter_cons, untaggedOldAvailable, h1, h2, h3, ih]
      · simp [step14Loop, List.filter_cons, untaggedOldAvailable, h1, h2, ih]
    · simp [step14Loop, List.filter_cons, untaggedOldAvailable, h1, ih]

/-- Claim C10: step 14 is report-only — by construction it receives nothing
but the volume listing and the clock and issues no provider call — and it
counts exactly the listed volumes with no tags, age strictly over the
untagged-cleanup threshold, and state `available`, contributing one warning
line carrying that count when it is positive and no line when it is zero. -/
theorem claim_c10_untagged_report_only (vols : List Volume) (now cleanupDays : ℤ) :
    step14 (.ok vols) now cleanupDays =
      .ok (if 0 < (vols.filter (untaggedOldAvailable now cleanupDays)).length
        then ["⚠️ Found " ++
               toString (vols.filter (untaggedOldAvailable now cleanupDays)).length ++
               " untagged volumes older than " ++ toString cleanupDays ++ " days"]
        else []) := by
  simp only [step14]
  rw [step14Loop_eq]
  by_cases hf : vols.filter (untaggedOldAvailable now cleanupDays) = []
  · rw [hf]
    simp
  · have hlen : 0 < (vols.filter (untaggedOldAvailable now cleanupDays)).length :=
      List.length_pos.mpr hf
    have hne : ((vols.filter (untaggedOldAvailable now cleanupDays)).map
        (fun v => v.volumeId)).isEmpty = false := by
      simp [List.isEmpty_iff, hf]
    rw [hne]
    simp only [Bool.false_eq_true, if_false, if_pos hlen, List.length_map]
